import Mathlib

/-!
Shallow embedding of the streesense ML pipeline, translated from
`src/ml_model/train_model.py` and `src/ml_model/convert_to_tflite.py`.

Conventions of the embedding:
* Python floats are modelled as exact rationals (`ℚ`).
* The numpy random draws are abstracted by an `RngModel`: a family of
  draw functions parameterised by an integer generator state.  Both
  scripts call `np.random.seed(42)` at the top of their generator, which
  is modelled by discarding the incoming state and drawing from state 42.
* Opaque library objects (fitted sklearn forests, keras weight tensors,
  tflite blobs) are modelled as abstract data (`ℕ`) produced by abstract
  semantics records (`SklearnSem`, `TFSem`); the pipeline code under
  verification is the glue that calls them with specific constants.
* Effectful scripts are modelled as pure functions returning a trace
  record of everything the script computed, persisted and printed.
-/

namespace StreeSense

/-- The four behavioral features of one sample, in the fixed order used by
both scripts: typing speed, backspace ratio, touch pressure, session length. -/
structure RawFeatures where
  typing_speed : ℚ
  backspace_ratio : ℚ
  touch_pressure : ℚ
  session_length : ℚ
  deriving DecidableEq

/-- Stress score of `train_model.py` (lines 33-38):
`typing_speed*0.5 + backspace_ratio*10 + touch_pressure*3 - session_length*0.01`,
computed on the raw (never normalized) feature values. -/
def stressScoreTM (f : RawFeatures) : ℚ :=
  f.typing_speed * 0.5 + f.backspace_ratio * 10 + f.touch_pressure * 3
    - f.session_length * 0.01

/-- Stress score of `convert_to_tflite.py` (lines 51-56):
`typing_speed*0.5 + backspace_ratio*0.3 + touch_pressure*0.3 - session_length*0.1`.
In that script the four feature variables have already been overwritten by their
normalized versions (lines 43-46) before this formula is applied. -/
def stressScoreConv (f : RawFeatures) : ℚ :=
  f.typing_speed * 0.5 + f.backspace_ratio * 0.3 + f.touch_pressure * 0.3
    - f.session_length * 0.1

/-- Feature normalization of `convert_to_tflite.py` (lines 42-46):
`(typing_speed - 5.0)/1.5`, `backspace_ratio * 5`,
`(touch_pressure - 0.6)/0.2`, `(session_length - 60)/60`. -/
def normalizeFeatures (f : RawFeatures) : RawFeatures where
  typing_speed := (f.typing_speed - 5.0) / 1.5
  backspace_ratio := f.backspace_ratio * 5
  touch_pressure := (f.touch_pressure - 0.6) / 0.2
  session_length := (f.session_length - 60) / 60

/-- The inverse affine map of `normalizeFeatures`, per feature:
`v*1.5 + 5.0`, `v/5`, `v*0.2 + 0.6`, `v*60 + 60`. -/
def denormalizeFeatures (f : RawFeatures) : RawFeatures where
  typing_speed := f.typing_speed * 1.5 + 5.0
  backspace_ratio := f.backspace_ratio / 5
  touch_pressure := f.touch_pressure * 0.2 + 0.6
  session_length := f.session_length * 60 + 60

/-- The virtual rank used by `np.percentile(-, 70)` with its default linear
interpolation: `0.7 * (n - 1)` for a batch of `n` scores. -/
def p70rank (n : ℕ) : ℚ := 7 * ((n : ℚ) - 1) / 10

/-- The integer part of the virtual rank of the 70th percentile. -/
def p70idx (n : ℕ) : ℕ := (⌊p70rank n⌋).toNat

/-- `np.percentile(xs, 70)` with numpy's default linear interpolation:
sort ascending, let `rank = 0.7*(n-1)`, `k = ⌊rank⌋`, and interpolate
`s[k] + (rank - k)*(s[k+1] - s[k])`.  When `k` is the last index (for
q = 70 that happens only when `n = 1`, where `rank - k = 0`) the second
lookup falls back to `s[k]`, matching numpy's `s[k]` result there.
(numpy raises on an empty input; the empty case is irrelevant below.) -/
def percentile70 (xs : List ℚ) : ℚ :=
  let s := List.insertionSort (· ≤ ·) xs
  let k := p70idx xs.length
  let a := s.getD k 0
  let b := s.getD (k + 1) a
  a + (p70rank xs.length - k) * (b - a)

/-- Percentile-threshold labeling shared by both generators
(`train_model.py` lines 42-43, `convert_to_tflite.py` lines 57-58):
`threshold = np.percentile(scores, 70)`, label `1` iff `score > threshold`.
(`convert_to_tflite.py` casts the labels to float32; the 0/1 values are
represented as naturals here.) -/
def stressLabels (scores : List ℚ) : List ℕ :=
  scores.map fun s => if percentile70 scores < s then 1 else 0

/-- Abstract semantics of the `np.random` draw routines used by the two
generators.  Each draw function takes the current generator state, the
distribution parameters and the requested size, and returns the drawn
values together with the successor state. -/
structure RngModel where
  normalDraws : ℕ → ℚ → ℚ → ℕ → List ℚ × ℕ
  betaDraws : ℕ → ℚ → ℚ → ℕ → List ℚ × ℕ
  expDraws : ℕ → ℚ → ℕ → List ℚ × ℕ

/-- Zip the four per-feature columns into a list of `RawFeatures`
(the row-wise view of the generated columns / of `np.column_stack`). -/
def zip4 : List ℚ → List ℚ → List ℚ → List ℚ → List RawFeatures
  | a :: as, b :: bs, c :: cs, d :: ds => ⟨a, b, c, d⟩ :: zip4 as bs cs ds
  | _, _, _, _ => []

/-- The four independent column draws shared verbatim by both generators:
`normal(5.0, 1.5)`, `beta(2, 10)`, `normal(0.6, 0.2)`, `exponential(60)`,
drawn in this order starting from generator state `s0`. -/
def rawDraws (M : RngModel) (s0 : ℕ) (n : ℕ) : List RawFeatures :=
  let ts := M.normalDraws s0 5.0 1.5 n
  let br := M.betaDraws ts.2 2 10 n
  let tp := M.normalDraws br.2 0.6 0.2 n
  let sl := M.expDraws tp.2 60 n
  zip4 ts.1 br.1 tp.1 sl.1

/-- The in-memory dataset of `train_model.py`: the four raw feature columns
plus the derived `is_stressed` labels. -/
structure Dataset where
  features : List RawFeatures
  labels : List ℕ
  deriving DecidableEq

/-- `generate_synthetic_data(n_samples)` of `train_model.py` (lines 12-53):
re-seed the generator with 42 (discarding the caller's generator state
`rngState`), draw the four raw columns, score them with `stressScoreTM`,
and label by the 70th-percentile threshold. -/
def generate_synthetic_data (M : RngModel) (rngState : ℕ) (n_samples : ℕ) : Dataset :=
  let raw := rawDraws M 42 n_samples
  let scores := raw.map stressScoreTM
  { features := raw, labels := stressLabels scores }

/-- `generate_training_data(n_samples)` of `convert_to_tflite.py`
(lines 33-60): re-seed with 42 (discarding `rngState`), draw the same four
raw columns, overwrite them with their normalized versions, then score the
normalized values with `stressScoreConv` and label by the 70th-percentile
threshold.  Returns `(X, y)` with `X` the normalized features. -/
def generate_training_data (M : RngModel) (rngState : ℕ) (n_samples : ℕ) :
    List RawFeatures × List ℕ :=
  let raw := rawDraws M 42 n_samples
  let X := raw.map normalizeFeatures
  let scores := X.map stressScoreConv
  (X, stressLabels scores)

/-! ### Theorems for claims C1, C3, C8 -/

/-- C1 (counterexample): it is false that the `train_model.py` variant scores
raw features as `0.5*typing_speed + w_b*backspace_ratio + w_p*touch_pressure
- 0.1*session_length` for any variant-specific weights `w_b`, `w_p`: at the
raw feature vector `(0, 0, 0, 100)` the code's score is `-1` (coefficient
`0.01` on `session_length`) while the claimed form forces `-10`. -/
theorem stressScoreTM_not_claimed_form :
    ¬ ∃ wb wp : ℚ, ∀ f : RawFeatures,
      stressScoreTM f = 0.5 * f.typing_speed + wb * f.backspace_ratio
        + wp * f.touch_pressure - 0.1 * f.session_length := by
  rintro ⟨wb, wp, h⟩
  have h100 := h ⟨0, 0, 0, 100⟩
  simp only [stressScoreTM] at h100
  norm_num at h100

/-- C1 (amended): the two variants disagree beyond `w_b` and `w_p`.
`train_model.py` scores the raw features with session-length coefficient
`0.01` (score `= 0.5*ts + 10*br + 3*tp - 0.01*sl`), while
`convert_to_tflite.py` scores the already-normalized features (not the raw
ones) with session-length coefficient `0.1`
(score `= 0.5*ts' + 0.3*br' + 0.3*tp' - 0.1*sl'` on the normalized values),
and in both generators the labels are derived from exactly those scores. -/
theorem stressScore_variants (M : RngModel) (rs n : ℕ) (f : RawFeatures) :
    stressScoreTM f = 0.5 * f.typing_speed + 10 * f.backspace_ratio
        + 3 * f.touch_pressure - 0.01 * f.session_length
    ∧ stressScoreConv (normalizeFeatures f)
        = 0.5 * ((f.typing_speed - 5.0) / 1.5) + 0.3 * (f.backspace_ratio * 5)
          + 0.3 * ((f.touch_pressure - 0.6) / 0.2) - 0.1 * ((f.session_length - 60) / 60)
    ∧ (generate_synthetic_data M rs n).labels
        = stressLabels ((rawDraws M 42 n).map stressScoreTM)
    ∧ (generate_training_data M rs n).2
        = stressLabels (((rawDraws M 42 n).map normalizeFeatures).map stressScoreConv) := by
  refine ⟨?_, ?_, rfl, rfl⟩
  · simp only [stressScoreTM]; ring
  · simp only [stressScoreConv, normalizeFeatures]; ring

/-- C3: the per-feature normalization of `convert_to_tflite.py` is invertible
over exact arithmetic: applying `normalizeFeatures` and then the inverse
affine map `denormalizeFeatures` recovers every raw feature vector exactly. -/
theorem normalize_roundtrip (f : RawFeatures) :
    denormalizeFeatures (normalizeFeatures f) = f := by
  cases f with
  | mk ts br tp sl =>
    simp only [normalizeFeatures, denormalizeFeatures, RawFeatures.mk.injEq]
    refine ⟨?_, ?_, ?_, ?_⟩ <;> · field_simp

/-- C8: both generators are deterministic in the strong sense that the
produced dataset does not depend on the incoming generator state at all —
each call re-seeds with the fixed seed 42 — so two invocations with the same
sample count produce identical features and identical labels, in both
pipeline variants. -/
theorem generators_deterministic (M : RngModel) (s1 s2 n : ℕ) :
    generate_synthetic_data M s1 n = generate_synthetic_data M s2 n
    ∧ generate_training_data M s1 n = generate_training_data M s2 n :=
  ⟨rfl, rfl⟩

/-! ### Percentile-counting infrastructure for claim C2 -/

/-- Counting label-1 entries is counting scores above the threshold. -/
lemma count_one_threshold (t : ℚ) (l : List ℚ) :
    (l.map fun s => if t < s then (1 : ℕ) else 0).count 1
      = l.countP fun x => decide (t < x) := by
  induction l with
  | nil => rfl
  | cons a tl ih =>
    by_cases h : t < a <;>
      simp [h, ih, List.count_cons, List.countP_cons]

/-- In a `≤`-sorted list where the entries at indices `0..k` are at most `t`
and those above index `k` exceed `t`, exactly `length - (k+1)` entries
exceed `t`. -/
lemma countP_gt_sorted (t : ℚ) (s : List ℚ) (k : ℕ) (hk : k < s.length)
    (h1 : ∀ i (hi : i < s.length), i ≤ k → s.get ⟨i, hi⟩ ≤ t)
    (h2 : ∀ i (hi : i < s.length), k < i → t < s.get ⟨i, hi⟩) :
    s.countP (fun x => decide (t < x)) = s.length - (k + 1) := by
  induction s generalizing k with
  | nil => exact absurd hk (Nat.not_lt_zero k)
  | cons a tl ih =>
    have ha : a ≤ t := h1 0 (Nat.succ_pos _) (Nat.zero_le k)
    have hnot : ¬ t < a := not_lt.mpr ha
    have hcons : (a :: tl).countP (fun x => decide (t < x))
        = tl.countP (fun x => decide (t < x)) := by
      simp [List.countP_cons, hnot]
    cases k with
    | zero =>
      have hall : tl.countP (fun x => decide (t < x)) = tl.length := by
        rw [List.countP_eq_length]
        intro x hx
        obtain ⟨⟨j, hj⟩, rfl⟩ := List.mem_iff_get.mp hx
        have hj2 : j + 1 < (a :: tl).length := Nat.succ_lt_succ hj
        exact decide_eq_true (h2 (j + 1) hj2 (Nat.succ_pos j))
      rw [hcons, hall]
      simp
    | succ k =>
      have hk2 : k < tl.length := Nat.lt_of_succ_lt_succ hk
      have hh1 : ∀ i (hi : i < tl.length), i ≤ k → tl.get ⟨i, hi⟩ ≤ t := by
        intro i hi hik
        exact h1 (i + 1) (Nat.succ_lt_succ hi) (Nat.succ_le_succ hik)
      have hh2 : ∀ i (hi : i < tl.length), k < i → t < tl.get ⟨i, hi⟩ := by
        intro i hi hki
        exact h2 (i + 1) (Nat.succ_lt_succ hi) (Nat.succ_lt_succ hki)
      rw [hcons, ih k hk2 hh1 hh2]
      simp only [List.length_cons]
      omega

/-- The integer part of the 70th-percentile rank, as natural division. -/
lemma p70idx_succ (m : ℕ) : p70idx (m + 1) = 7 * m / 10 := by
  have hrank : p70rank (m + 1) = ((7 * m : ℕ) : ℚ) / ((10 : ℕ) : ℚ) := by
    simp only [p70rank]; push_cast; ring
  simp only [p70idx, hrank, Int.floor_toNat, Nat.floor_div_eq_div]

/-- `round(0.3*N)` as natural division. -/
lemma round_three_tenths (n : ℕ) :
    round ((3 * n : ℚ) / 10) = ((3 * n + 5) / 10 : ℕ) := by
  rw [round_eq]
  have h : (3 * n : ℚ) / 10 + 1 / 2 = ((3 * n + 5 : ℕ) : ℚ) / ((10 : ℕ) : ℚ) := by
    push_cast; ring
  rw [h, ← Int.natCast_floor_eq_floor (by positivity), Nat.floor_div_eq_div]

/-- C2: in every batch, a sample is labeled 1 iff its stress score strictly
exceeds the 70th percentile of all scores of the batch, and — when the scores
are pairwise distinct, i.e. up to tie-handling at the percentile boundary —
the number of label-1 samples is within 1 of `round(0.30 * N)`. -/
theorem percentile_labeling (scores : List ℚ) (hn : 1 ≤ scores.length)
    (hd : scores.Pairwise (· ≠ ·)) :
    (∀ i (hi : i < scores.length) (hi2 : i < (stressLabels scores).length),
        (stressLabels scores).get ⟨i, hi2⟩ = 1
          ↔ percentile70 scores < scores.get ⟨i, hi⟩)
    ∧ ((stressLabels scores).count 1 : ℤ)
        ≤ round ((3 * (scores.length : ℚ)) / 10) + 1
    ∧ round ((3 * (scores.length : ℚ)) / 10)
        ≤ ((stressLabels scores).count 1 : ℤ) + 1 := by
  have hiff : ∀ i (hi : i < scores.length) (hi2 : i < (stressLabels scores).length),
      (stressLabels scores).get ⟨i, hi2⟩ = 1
        ↔ percentile70 scores < scores.get ⟨i, hi⟩ := by
    intro i hi hi2
    have hg : (stressLabels scores).get ⟨i, hi2⟩
        = if percentile70 scores < scores.get ⟨i, hi⟩ then 1 else 0 := by
      simp [stressLabels, List.get_eq_getElem]
    rw [hg]
    by_cases h : percentile70 scores < scores.get ⟨i, hi⟩ <;> simp [h]
  refine ⟨hiff, ?_⟩
  obtain ⟨m, hm⟩ : ∃ m, scores.length = m + 1 := ⟨scores.length - 1, by omega⟩
  have hperm : (List.insertionSort (· ≤ ·) scores).Perm scores :=
    List.perm_insertionSort _ scores
  set s := List.insertionSort (· ≤ ·) scores with hsdef
  have hlen : s.length = scores.length := hperm.length_eq
  have hsort : s.Sorted (· ≤ ·) := List.sorted_insertionSort _ scores
  have hnd : s.Pairwise (· ≠ ·) :=
    (List.Perm.pairwise_iff (fun h => Ne.symm h) hperm).mpr hd
  have hmono : ∀ (i j : Fin s.length), i < j → s.get i ≤ s.get j :=
    fun i j h => List.pairwise_iff_get.mp hsort i j h
  have hlt : ∀ (i j : Fin s.length), i < j → s.get i < s.get j :=
    fun i j h =>
      lt_of_le_of_ne (hmono i j h) (List.pairwise_iff_get.mp hnd i j h)
  set k := 7 * m / 10 with hkdef
  have hks : k < s.length := by rw [hlen, hm]; omega
  set a := s.get ⟨k, hks⟩ with hadef
  set t := percentile70 scores with htdef
  have hrank : p70rank (m + 1) = (7 * m : ℚ) / 10 := by
    simp only [p70rank]; push_cast; ring
  have hfrac0 : 0 ≤ p70rank (m + 1) - (k : ℚ) := by
    rw [hrank, hkdef, sub_nonneg, le_div_iff (by norm_num : (0 : ℚ) < 10)]
    have h10 : 7 * m / 10 * 10 ≤ 7 * m := by omega
    exact_mod_cast h10
  have hfrac1 : p70rank (m + 1) - (k : ℚ) < 1 := by
    rw [hrank, hkdef, sub_lt_iff_lt_add, div_lt_iff (by norm_num : (0 : ℚ) < 10)]
    have h10 : 7 * m < (1 + 7 * m / 10) * 10 := by omega
    exact_mod_cast h10
  have htval : t = a + (p70rank (m + 1) - (k : ℚ)) * (s.getD (k + 1) a - a) := by
    rw [htdef]
    simp only [percentile70, ← hsdef]
    rw [hm, p70idx_succ, ← hkdef]
    have hga : s.getD k 0 = a := by
      rw [List.getD_eq_getElem?_getD, List.getElem?_eq_getElem hks]
      simp [hadef, List.get_eq_getElem]
    rw [hga]
  have hbge : a ≤ s.getD (k + 1) a := by
    by_cases hb : k + 1 < s.length
    · rw [List.getD_eq_getElem?_getD, List.getElem?_eq_getElem hb]
      have := hmono ⟨k, hks⟩ ⟨k + 1, hb⟩ (by exact Fin.mk_lt_mk.mpr (Nat.lt_succ_self k))
      simpa [List.get_eq_getElem] using this
    · rw [List.getD_eq_getElem?_getD, List.getElem?_eq_none (by omega)]
      simp
  have hat : a ≤ t := by
    rw [htval]
    have := mul_nonneg hfrac0 (sub_nonneg.mpr hbge)
    linarith
  have hcnt : s.countP (fun x => decide (t < x)) = s.length - (k + 1) := by
    refine countP_gt_sorted t s k hks ?_ ?_
    · intro i hi hik
      rcases Nat.lt_or_eq_of_le hik with hlt2 | rfl
      · exact le_trans (hmono ⟨i, hi⟩ ⟨k, hks⟩ (Fin.mk_lt_mk.mpr hlt2)) hat
      · exact hat
    · intro i hi hki
      have hb : k + 1 < s.length := lt_of_le_of_lt (Nat.succ_le_of_lt hki) hi
      have hbval : s.getD (k + 1) a = s.get ⟨k + 1, hb⟩ := by
        rw [List.getD_eq_getElem?_getD, List.getElem?_eq_getElem hb]
        simp [List.get_eq_getElem]
      have hab : a < s.get ⟨k + 1, hb⟩ :=
        hlt ⟨k, hks⟩ ⟨k + 1, hb⟩ (Fin.mk_lt_mk.mpr (Nat.lt_succ_self k))
      have htb : t < s.get ⟨k + 1, hb⟩ := by
        rw [htval, hbval]
        nlinarith [mul_lt_mul_of_pos_right hfrac1 (sub_pos.mpr hab)]
      rcases Nat.lt_or_eq_of_le (Nat.succ_le_of_lt hki) with hlt2 | heq
      · exact lt_of_lt_of_le htb (hmono ⟨k + 1, hb⟩ ⟨i, hi⟩ (Fin.mk_lt_mk.mpr hlt2))
      · subst heq
        exact htb
  have hfinal : (stressLabels scores).count 1 = m - 7 * m / 10 := by
    have h1 : (stressLabels scores).count 1
        = scores.countP fun x => decide (t < x) := by
      rw [htdef]; exact count_one_threshold _ scores
    rw [h1, ← List.Perm.countP_eq _ hperm, hcnt, hlen, hm, hkdef]
    omega
  rw [round_three_tenths scores.length, hfinal, hm]
  constructor <;> omega

/-- Witness for C2: the labeling theorem applied to the concrete batch
`[1, 2, 3, 0]` (4 distinct scores; one sample above the 70th percentile,
`round(0.3*4) = 1`). -/
theorem percentile_labeling_witness :
    (1 ≤ ([1, 2, 3, 0] : List ℚ).length)
    ∧ (([1, 2, 3, 0] : List ℚ).Pairwise (· ≠ ·))
    ∧ ((∀ i (hi : i < ([1, 2, 3, 0] : List ℚ).length)
          (hi2 : i < (stressLabels [1, 2, 3, 0]).length),
          (stressLabels [1, 2, 3, 0]).get ⟨i, hi2⟩ = 1
            ↔ percentile70 [1, 2, 3, 0] < ([1, 2, 3, 0] : List ℚ).get ⟨i, hi⟩)
        ∧ ((stressLabels [1, 2, 3, 0]).count 1 : ℤ)
            ≤ round ((3 * ((([1, 2, 3, 0] : List ℚ).length : ℕ) : ℚ)) / 10) + 1
        ∧ round ((3 * ((([1, 2, 3, 0] : List ℚ).length : ℕ) : ℚ)) / 10)
            ≤ ((stressLabels [1, 2, 3, 0]).count 1 : ℤ) + 1) :=
  ⟨by decide, by decide,
    percentile_labeling ([1, 2, 3, 0] : List ℚ) (by decide) (by decide)⟩

/-! ### Ensemble training pipeline (`train_model.py`, for C4) -/

/-- Fraction of correct predictions, as computed by
`sklearn.metrics.accuracy_score`. -/
def accuracyScore (yTrue yPred : List ℕ) : ℚ :=
  (((yTrue.zip yPred).countP fun p => p.1 == p.2 : ℕ) : ℚ) / (yTrue.length : ℚ)

/-- Precision of class `c`: true positives over predicted positives. -/
def precisionOf (c : ℕ) (yTrue yPred : List ℕ) : ℚ :=
  (((yTrue.zip yPred).countP fun p => p.1 == c && p.2 == c : ℕ) : ℚ)
    / ((yPred.count c : ℕ) : ℚ)

/-- Recall of class `c`: true positives over actual positives. -/
def recallOf (c : ℕ) (yTrue yPred : List ℕ) : ℚ :=
  (((yTrue.zip yPred).countP fun p => p.1 == c && p.2 == c : ℕ) : ℚ)
    / ((yTrue.count c : ℕ) : ℚ)

/-- F1 of class `c`: harmonic mean of precision and recall. -/
def f1Of (c : ℕ) (yTrue yPred : List ℕ) : ℚ :=
  2 * precisionOf c yTrue yPred * recallOf c yTrue yPred
    / (precisionOf c yTrue yPred + recallOf c yTrue yPred)

/-- The per-class content of `sklearn.metrics.classification_report` for the
two classes 0 and 1: `(class, precision, recall, f1)`. -/
def classReport (yTrue yPred : List ℕ) : List (ℕ × ℚ × ℚ × ℚ) :=
  [0, 1].map fun c =>
    (c, precisionOf c yTrue yPred, recallOf c yTrue yPred, f1Of c yTrue yPred)

/-- Abstract semantics of the sklearn routines used by `train_model.py`:
`train_test_split(test_size, random_state)` on (feature, label) pairs, and
`RandomForestClassifier(n_estimators, random_state, max_depth).fit`
producing an opaque predictor, with its fitted `feature_importances_`. -/
structure SklearnSem where
  train_test_split : ℚ → ℕ → List (RawFeatures × ℕ) →
    List (RawFeatures × ℕ) × List (RawFeatures × ℕ)
  fit : ℕ → ℕ → ℕ → List (RawFeatures × ℕ) → (RawFeatures → ℕ)
  feature_importances : (RawFeatures → ℕ) → List ℚ

/-- Everything `train_model()` computes, persists and prints. -/
structure TrainModelTrace where
  dataset : Dataset
  splitTestSize : ℚ
  splitRandomState : ℕ
  nEstimators : ℕ
  forestRandomState : ℕ
  maxDepth : ℕ
  trainPairs : List (RawFeatures × ℕ)
  testPairs : List (RawFeatures × ℕ)
  testPreds : List ℕ
  accuracy : ℚ
  report : List (ℕ × ℚ × ℚ × ℚ)
  savedTo : String
  importances : List ℚ

/-- `train_model()` of `train_model.py` (lines 58-92): generate the synthetic
dataset (default 1000 samples), take `X` as the raw feature columns and `y`
as `is_stressed`, split with `train_test_split(test_size=0.2, random_state=42)`,
fit `RandomForestClassifier(n_estimators=100, random_state=42, max_depth=10)`
on the training split, evaluate accuracy and the classification report on the
held-out split, dump the model to `stress_rf_model.pkl`, and report the
fitted feature importances. -/
def train_model (M : RngModel) (S : SklearnSem) (rngState : ℕ) : TrainModelTrace :=
  let df := generate_synthetic_data M rngState 1000
  let pairs := df.features.zip df.labels
  let split := S.train_test_split 0.2 42 pairs
  let predict := S.fit 100 42 10 split.1
  let preds := split.2.map fun p => predict p.1
  let yTest := split.2.map Prod.snd
  { dataset := df
    splitTestSize := 0.2
    splitRandomState := 42
    nEstimators := 100
    forestRandomState := 42
    maxDepth := 10
    trainPairs := split.1
    testPairs := split.2
    testPreds := preds
    accuracy := accuracyScore yTest preds
    report := classReport yTest preds
    savedTo := "stress_rf_model.pkl"
    importances := S.feature_importances predict }

/-! ### Compact network model (`convert_to_tflite.py`, for C5) -/

/-- One keras layer of the compact network. -/
inductive Layer where
  | inputLayer (shape : ℕ)
  | dense (units : ℕ) (activation : String)
  | batchNorm
  | dropout (rate : ℚ)
  deriving DecidableEq

/-- Whether a layer is a `Dense` layer. -/
def Layer.isDense : Layer → Bool
  | .dense _ _ => true
  | _ => false

/-- The layer stack of `create_stress_model()` (lines 12-24):
input(4) → Dense(32, relu) → BatchNormalization → Dropout(0.3) →
Dense(16, relu) → BatchNormalization → Dropout(0.2) → Dense(8, relu) →
Dense(1, sigmoid). -/
def create_stress_model : List Layer :=
  [Layer.inputLayer 4,
   Layer.dense 32 "relu",
   Layer.batchNorm,
   Layer.dropout 0.3,
   Layer.dense 16 "relu",
   Layer.batchNorm,
   Layer.dropout 0.2,
   Layer.dense 8 "relu",
   Layer.dense 1 "sigmoid"]

/-- The compile configuration of `create_stress_model()` (lines 26-30). -/
structure CompileConfig where
  optimizer : String
  learningRate : ℚ
  loss : String
  metrics : List String
  deriving DecidableEq

/-- `model.compile(optimizer=Adam(learning_rate=0.001),
loss=binary_crossentropy, metrics=[accuracy])`. -/
def create_stress_model_compile : CompileConfig :=
  { optimizer := "adam"
    learningRate := 0.001
    loss := "binary_crossentropy"
    metrics := ["accuracy"] }

/-! ### Compact network training, conversion and verification
(`convert_to_tflite.py`, for C6, C7, C9, C10) -/

/-- Abstract semantics of the tensorflow routines used by
`train_and_convert()`.  Weight tensors and converted flatbuffers are opaque
data (`ℕ`); `epochStep X y batchSize` is one full pass of `model.fit` over
the shuffled training batches, `lossOf` the loss it would report; `convert`
is the `TFLiteConverter` size-reduction transform; `infer` runs the tflite
interpreter on a 4-float input vector. -/
structure TFSem where
  initWeights : List Layer → ℕ
  epochStep : List RawFeatures → List ℕ → ℕ → ℕ → ℕ
  lossOf : ℕ → ℚ
  evalModel : ℕ → List RawFeatures → List ℕ → ℚ × ℚ
  convert : ℕ → ℕ
  infer : ℕ → List ℚ → ℚ

/-- The keras `fit` loop with no callbacks: run the epoch step the requested
number of times, returning the final weights and the number of epochs
actually run.  Nothing in the loop consults the loss, mirroring the absence
of any early-stopping callback in the source. -/
def runFit (step : ℕ → ℕ) (w : ℕ) : ℕ → ℕ × ℕ
  | 0 => (w, 0)
  | n + 1 =>
    let p := runFit step w n
    (step p.1, p.2 + 1)

/-- `int(0.8 * len(X))` of line 67, over exact arithmetic. -/
def splitIndex (n : ℕ) : ℕ := ⌊(0.8 : ℚ) * n⌋₊

/-- The deterministic slice split of lines 67-69:
`(X[:split], X[split:])` with `split = int(0.8 * len(X))`. -/
def splitData {α : Type} (X : List α) : List α × List α :=
  (X.take (splitIndex X.length), X.drop (splitIndex X.length))

/-- Everything `train_and_convert()` computes, persists and prints. -/
structure ConvertTrace where
  xTrain : List RawFeatures
  xTest : List RawFeatures
  yTrain : List ℕ
  yTest : List ℕ
  validationData : List RawFeatures × List ℕ
  fitEpochsArg : ℕ
  fitBatchArg : ℕ
  epochsRun : ℕ
  kerasSavedPath : String
  kerasSavedWeights : ℕ
  tflitePath : String
  tfliteBlob : ℕ
  testAccuracy : ℚ
  verifyInput : List ℚ
  verifyOutput : ℚ

/-- `train_and_convert()` of `convert_to_tflite.py` (lines 62-120):
generate 2000 training samples, slice-split 80/20, build the keras model,
`fit(X_train, y_train, validation_data=(X_test, y_test), epochs=50,
batch_size=32)`, evaluate on the test slice, save the keras model, convert
it to tflite and save that, then run the fixed sample input
`[0.5, 0.3, 0.7, -0.2]` through the tflite interpreter and print the
resulting prediction (no assertion is made about it). -/
def train_and_convert (M : RngModel) (T : TFSem) (rngState : ℕ) : ConvertTrace :=
  let Xy := generate_training_data M rngState 2000
  let X := Xy.1
  let y := Xy.2
  let split := splitIndex X.length
  let xTrain := X.take split
  let xTest := X.drop split
  let yTrain := y.take split
  let yTest := y.drop split
  let w0 := T.initWeights create_stress_model
  let fitResult := runFit (T.epochStep xTrain yTrain 32) w0 50
  let evalResult := T.evalModel fitResult.1 xTest yTest
  let tfl := T.convert fitResult.1
  let out := T.infer tfl [0.5, 0.3, 0.7, -0.2]
  { xTrain := xTrain
    xTest := xTest
    yTrain := yTrain
    yTest := yTest
    validationData := (xTest, yTest)
    fitEpochsArg := 50
    fitBatchArg := 32
    epochsRun := fitResult.2
    kerasSavedPath := "stress_model.keras"
    kerasSavedWeights := fitResult.1
    tflitePath := "stress_model.tflite"
    tfliteBlob := tfl
    testAccuracy := evalResult.2
    verifyInput := [0.5, 0.3, 0.7, -0.2]
    verifyOutput := out }

/-- The module-level statement `model = joblib.load("stress_rf_model.pkl")`
(line 7 of `convert_to_tflite.py`), which runs before `train_and_convert()`
when the script is executed: it fails with `FileNotFoundError` when the
ensemble model file does not exist, and otherwise binds the loaded blob
(which the rest of the script never uses). -/
def moduleLoad (fs : String → Option ℕ) : Except String ℕ :=
  match fs "stress_rf_model.pkl" with
  | some blob => Except.ok blob
  | none => Except.error "FileNotFoundError: stress_rf_model.pkl"

/-- Running `convert_to_tflite.py` as a script: the module-level
`joblib.load` first, then `train_and_convert()` (the `__main__` block). -/
def runConvertScript (fs : String → Option ℕ) (M : RngModel) (T : TFSem)
    (rngState : ℕ) : Except String ConvertTrace :=
  match moduleLoad fs with
  | Except.ok _ => Except.ok (train_and_convert M T rngState)
  | Except.error e => Except.error e

/-- A concrete degenerate rng semantics (all draws are zero), used to
instantiate counterexamples and witnesses. -/
def zeroRng : RngModel :=
  { normalDraws := fun _ _ _ n => (List.replicate n 0, 0)
    betaDraws := fun _ _ _ n => (List.replicate n 0, 0)
    expDraws := fun _ _ n => (List.replicate n 0, 0) }

/-- A concrete degenerate tensorflow semantics whose tflite interpreter
always outputs 2 (a value outside [0,1]), used in counterexamples. -/
def constTwoTF : TFSem :=
  { initWeights := fun _ => 0
    epochStep := fun _ _ _ w => w
    lossOf := fun _ => 0
    evalModel := fun _ _ _ => (0, 0)
    convert := fun w => w
    infer := fun _ _ => 2 }

/-- A filesystem on which every path exists. -/
def fullFs : String → Option ℕ := fun _ => some 0

/-- The empty filesystem: no path exists. -/
def emptyFs : String → Option ℕ := fun _ => none

/-! ### Theorems for claims C4, C5, C6, C7, C9, C10 -/

/-- C4: `train_model()` splits the dataset 80/20 (`test_size = 0.2`) with the
fixed split seed 42, fits a 100-tree depth-10 forest on the raw (never
normalized) generated features, evaluates accuracy and the
precision/recall/F1 report on the held-out 20%, reports the fitted
per-feature importances, and persists the model to `stress_rf_model.pkl`. -/
theorem train_model_contract (M : RngModel) (S : SklearnSem) (r : ℕ) :
    (train_model M S r).splitTestSize = 1 / 5
    ∧ (train_model M S r).splitRandomState = 42
    ∧ (train_model M S r).nEstimators = 100
    ∧ (train_model M S r).maxDepth = 10
    ∧ (train_model M S r).trainPairs
        = (S.train_test_split 0.2 42
            ((generate_synthetic_data M r 1000).features.zip
              (generate_synthetic_data M r 1000).labels)).1
    ∧ (train_model M S r).testPairs
        = (S.train_test_split 0.2 42
            ((generate_synthetic_data M r 1000).features.zip
              (generate_synthetic_data M r 1000).labels)).2
    ∧ (train_model M S r).testPreds
        = (train_model M S r).testPairs.map
            (fun p => S.fit 100 42 10 (train_model M S r).trainPairs p.1)
    ∧ (train_model M S r).accuracy
        = accuracyScore ((train_model M S r).testPairs.map Prod.snd)
            (train_model M S r).testPreds
    ∧ (train_model M S r).report
        = classReport ((train_model M S r).testPairs.map Prod.snd)
            (train_model M S r).testPreds
    ∧ (train_model M S r).importances
        = S.feature_importances (S.fit 100 42 10 (train_model M S r).trainPairs)
    ∧ (train_model M S r).savedTo = "stress_rf_model.pkl" := by
  refine ⟨?_, rfl, rfl, rfl, rfl, rfl, rfl, rfl, rfl, rfl, rfl⟩
  norm_num [train_model]

/-- C5 (counterexample): the network of `create_stress_model()` does not have
three dense layers with the last being the sigmoid output — it has four
dense layers (32-relu, 16-relu, 8-relu, 1-sigmoid). -/
theorem create_stress_model_not_three_dense :
    create_stress_model.countP Layer.isDense = 4
    ∧ create_stress_model.countP Layer.isDense ≠ 3 := by
  constructor <;> decide

/-- C5 (amended): the topology is input(4) → dense(32, relu) → normalize →
dropout(0.3) → dense(16, relu) → normalize → dropout(0.2) → dense(8, relu) →
dense(1, sigmoid): four dense layers, the last being the 1-unit sigmoid
output, accepting a 4-feature input vector. -/
theorem create_stress_model_topology :
    create_stress_model
      = [Layer.inputLayer 4, Layer.dense 32 "relu", Layer.batchNorm,
         Layer.dropout 0.3, Layer.dense 16 "relu", Layer.batchNorm,
         Layer.dropout 0.2, Layer.dense 8 "relu", Layer.dense 1 "sigmoid"]
    ∧ create_stress_model.countP Layer.isDense = 4
    ∧ create_stress_model.head? = some (Layer.inputLayer 4)
    ∧ create_stress_model.getLast? = some (Layer.dense 1 "sigmoid") :=
  ⟨rfl, by decide, rfl, rfl⟩

/-- The fit loop runs exactly the requested number of epochs. -/
lemma runFit_epochs (step : ℕ → ℕ) (w : ℕ) : ∀ n, (runFit step w n).2 = n
  | 0 => rfl
  | n + 1 => by simp [runFit, runFit_epochs step w n]

/-- The fit loop's final weights are the epoch step iterated. -/
lemma runFit_weights (step : ℕ → ℕ) (w : ℕ) : ∀ n, (runFit step w n).1 = step^[n] w
  | 0 => rfl
  | n + 1 => by
    simp [runFit, runFit_weights step w n, Function.iterate_succ_apply']

/-- C6: `train_and_convert()` calls `fit` with `epochs=50, batch_size=32` and
no callbacks; the loop runs exactly 50 epochs whatever the loss does (the
quantification over `T` covers every loss behaviour, plateaued or not), and
the weights persisted to the keras file are exactly the weights after epoch
50 — the model is never persisted earlier. -/
theorem fixed_epoch_training (M : RngModel) (T : TFSem) (r : ℕ) :
    (train_and_convert M T r).fitEpochsArg = 50
    ∧ (train_and_convert M T r).fitBatchArg = 32
    ∧ (train_and_convert M T r).epochsRun = 50
    ∧ (train_and_convert M T r).kerasSavedPath = "stress_model.keras"
    ∧ (train_and_convert M T r).kerasSavedWeights
        = (T.epochStep (train_and_convert M T r).xTrain
            (train_and_convert M T r).yTrain 32)^[50]
            (T.initWeights create_stress_model) :=
  ⟨rfl, rfl, runFit_epochs _ _ 50, rfl, runFit_weights _ _ 50⟩

/-- C7 (counterexample): the tflite self-check does not assert anything: with
an interpreter semantics whose output on the sample input is 2 — not a
probability in [0,1] — the script still completes successfully and merely
reports the value. -/
theorem tflite_verify_no_assert :
    runConvertScript fullFs zeroRng constTwoTF 0
      = Except.ok (train_and_convert zeroRng constTwoTF 0)
    ∧ (train_and_convert zeroRng constTwoTF 0).verifyOutput = 2
    ∧ ¬ ((0 : ℚ) ≤ (train_and_convert zeroRng constTwoTF 0).verifyOutput
          ∧ (train_and_convert zeroRng constTwoTF 0).verifyOutput ≤ 1) := by
  refine ⟨rfl, rfl, ?_⟩
  rintro ⟨-, h⟩
  have h2 : (2 : ℚ) ≤ 1 := h
  norm_num at h2

/-- C7 (amended): after conversion the script runs the one fixed sample input
`[0.5, 0.3, 0.7, -0.2]` through the converted model's inference path and
reports the resulting value; it performs no assertion on it, and the
procedure always completes. -/
theorem tflite_verify_reports (M : RngModel) (T : TFSem) (r : ℕ) :
    (train_and_convert M T r).verifyInput = [0.5, 0.3, 0.7, -0.2]
    ∧ (train_and_convert M T r).verifyOutput
        = T.infer (train_and_convert M T r).tfliteBlob [0.5, 0.3, 0.7, -0.2] :=
  ⟨rfl, rfl⟩

/-- C9 (counterexample): running `convert_to_tflite.py` without the persisted
ensemble model file fails at the module-level `joblib.load`, before
`train_and_convert()` starts — the two entry points are not independent. -/
theorem convert_script_requires_ensemble_file :
    runConvertScript emptyFs zeroRng constTwoTF 0
      = Except.error "FileNotFoundError: stress_rf_model.pkl" := rfl

/-- C9 (amended): the compact-network script requires the ensemble model file
`stress_rf_model.pkl` to exist (it loads it at import time), but the loaded
model is never used: on any filesystem containing that file the script runs
to completion with no required arguments, and its behaviour is identical
across filesystems (in particular, independent of the file's contents). -/
theorem convert_script_independent_given_file (fs fs2 : String → Option ℕ)
    (M : RngModel) (T : TFSem) (r : ℕ)
    (h : (fs "stress_rf_model.pkl").isSome = true)
    (h2 : (fs2 "stress_rf_model.pkl").isSome = true) :
    runConvertScript fs M T r = Except.ok (train_and_convert M T r)
    ∧ runConvertScript fs M T r = runConvertScript fs2 M T r := by
  obtain ⟨b, hb⟩ := Option.isSome_iff_exists.mp h
  obtain ⟨b2, hb2⟩ := Option.isSome_iff_exists.mp h2
  constructor
  · simp [runConvertScript, moduleLoad, hb]
  · simp [runConvertScript, moduleLoad, hb, hb2]

/-- Witness for C9 (amended), on the filesystem where every path exists. -/
theorem convert_script_independent_witness :
    ((fullFs "stress_rf_model.pkl").isSome = true)
    ∧ ((fullFs "stress_rf_model.pkl").isSome = true)
    ∧ (runConvertScript fullFs zeroRng constTwoTF 0
          = Except.ok (train_and_convert zeroRng constTwoTF 0)
        ∧ runConvertScript fullFs zeroRng constTwoTF 0
          = runConvertScript fullFs zeroRng constTwoTF 0) :=
  ⟨rfl, rfl,
    convert_script_independent_given_file fullFs fullFs zeroRng constTwoTF 0 rfl rfl⟩

/-- `int(0.8 * n)` is `⌊4n/5⌋`, i.e. natural division `4*n/5`. -/
lemma splitIndex_eq (n : ℕ) : splitIndex n = 4 * n / 5 := by
  have h : (0.8 : ℚ) * n = ((4 * n : ℕ) : ℚ) / ((5 : ℕ) : ℚ) := by push_cast; ring
  rw [splitIndex, h, Nat.floor_div_eq_div]

/-- C10: the compact trainer's 80/20 split is deterministic and
order-preserving: for every dataset it takes exactly the first
`⌊0.8*N⌋ = 4N/5` samples as the training set and the remaining samples as
the test/validation set, with no shuffling (concatenating the two parts
gives back the dataset in order); `train_and_convert` splits exactly so. -/
theorem deterministic_slice_split {α : Type} (X : List α) (M : RngModel)
    (T : TFSem) (r : ℕ) :
    (splitData X).1 = X.take (4 * X.length / 5)
    ∧ (splitData X).2 = X.drop (4 * X.length / 5)
    ∧ (splitData X).1 ++ (splitData X).2 = X
    ∧ (train_and_convert M T r).xTrain
        = (splitData (generate_training_data M r 2000).1).1
    ∧ (train_and_convert M T r).xTest
        = (splitData (generate_training_data M r 2000).1).2
    ∧ (train_and_convert M T r).yTrain
        = (generate_training_data M r 2000).2.take
            (splitIndex (generate_training_data M r 2000).1.length)
    ∧ (train_and_convert M T r).yTest
        = (generate_training_data M r 2000).2.drop
            (splitIndex (generate_training_data M r 2000).1.length) := by
  refine ⟨?_, ?_, List.take_append_drop _ _, rfl, rfl, rfl, rfl⟩
  · simp [splitData, splitIndex_eq]
  · simp [splitData, splitIndex_eq]

end StreeSense
